import Mathlib

/-!
Verification of the SHT4x sensor driver (`SHT4x.py`).

The driver is embedded shallowly:

* Python `int` values are `Nat`; bitwise operators are `Nat` bitwise operators,
  with masking (`&&& 0xFF`) written exactly where the source writes `& 0xFF`.
* The floating-point settle delays and conversion formulas of the source are
  embedded over `ℚ`, with the decimal literals of the source (`0.01`, `-45.0`,
  `175.0 / 65535.0`, …) read as the exact rationals they denote.  Python's
  `round(x, 1)` is embedded as rounding `10 * x` to the nearest integer and
  dividing by `10`; for the temperature and humidity formulas a tie
  (a value exactly halfway between two multiples of 1/10) is impossible —
  it would force an odd multiple of `65535` to be even — so the choice of
  tie-breaking rule is irrelevant on every reachable input.
* The mutable fields of a driver instance form `SensorState`; each method
  becomes a function from the old state (plus the outcome of the bus
  primitives it calls) to the new state and its return value.  A bus write
  outcome is a `Bool` (`false` = the transport raised), a 6-byte bus read
  outcome is an `Option (List Nat)` (`none` = the transport raised).
* `reset` additionally returns the list of bus actions it performs, so that
  "sends byte 0x94 and never reads" is a provable statement, not a comment.
-/

namespace SHT4x

/-- Bus actions, used to record what `reset` does on the wire. -/
inductive BusAction where
  | write (b : Nat)
  | read (count : Nat)
  deriving DecidableEq, Repr

/-- `ADDRESS = 0x44` from the source. -/
def ADDRESS : Nat := 0x44

/-- `CMD_SOFT_RESET = 0x94` from the source. -/
def CMD_SOFT_RESET : Nat := 0x94

/-- `CMD_READ_SERIAL_NUMBER = 0x89` from the source. -/
def CMD_READ_SERIAL_NUMBER : Nat := 0x89

/-- The `VALID_MODES` dict of the source, in its insertion order
(Python dicts iterate in insertion order): mode name ↦ (command byte,
settle delay in seconds, as an exact rational). -/
def VALID_MODES : List (String × Nat × ℚ) :=
  [("high",            (0xFD, 1/100)),
   ("medium",          (0xF6, 1/100)),
   ("low",             (0xE0, 1/100)),
   ("heat 1s 200mW",   (0x39, 101/100)),
   ("heat 0.1s 200mW", (0x32, 11/100)),
   ("heat 1s 110mW",   (0x2F, 101/100)),
   ("heat 0.1s 110mW", (0x24, 11/100)),
   ("heat 1s 20mW",    (0x1E, 101/100)),
   ("heat 0.1s 20mW",  (0x15, 11/100))]

/-- One inner-loop step of `_calculate_crc8`:
`if crc & 0x80: crc = (crc << 1) ^ 0x31 else: crc <<= 1`.
The source does NOT mask here; it masks only on return. -/
def crc8Step (crc : Nat) : Nat :=
  if crc &&& 0x80 ≠ 0 then (crc <<< 1) ^^^ 0x31 else crc <<< 1

/-- One outer-loop iteration of `_calculate_crc8`: `crc ^= byte` followed by
the 8 inner steps. -/
def crc8Byte (crc b : Nat) : Nat := crc8Step^[8] (crc ^^^ b)

/-- `SHT4x._calculate_crc8`: fold the per-byte step over the data starting
from `0xFF`, and mask the result with `0xFF` (`return crc & 0xFF`). -/
def calculate_crc8 (data : List Nat) : Nat :=
  (data.foldl crc8Byte 0xFF) &&& 0xFF

/-- One inner step of the checksum algorithm as the spec words it
(§4.1): shift/conditional-XOR, then "mask to 8 bits after each step". -/
def crc8RefStep (crc : Nat) : Nat :=
  (if crc &&& 0x80 ≠ 0 then (crc <<< 1) ^^^ 0x31 else crc <<< 1) &&& 0xFF

/-- The reference CRC-8 of the spec (§4.1): polynomial 0x31, init 0xFF,
MSB-first, no final XOR, accumulator masked to 8 bits after each step. -/
def crc8Ref (data : List Nat) : Nat :=
  data.foldl (fun crc b => crc8RefStep^[8] (crc ^^^ b)) 0xFF

/-- The mutable fields of an `SHT4x` instance.
`mode` is `Option Nat` because the setter assigns Python `None` to `_mode`
before searching the table (`__init__` puts `0` there, i.e. `some 0`). -/
structure SensorState where
  mode : Option Nat
  delay : ℚ
  temperature : Option Nat
  humidity : Option Nat
  valid : Bool
  serial : String
  deriving DecidableEq, Repr

/-- The state fields as `__init__` sets them before any bus traffic
(`_valid = False`, `_serial_number = "None"`, `_mode = 0`, `_delay = 0.0`,
`_temperature = None`, `_humidity = None`). -/
def initState : SensorState :=
  { mode := some 0, delay := 0, temperature := none, humidity := none,
    valid := false, serial := "None" }

/-- `SHT4x._read_data_with_crc`, applied to the 6 bytes the bus delivered:
checksum bytes `data[0:2]` against `data[2]` and `data[3:5]` against
`data[5]`; on success return the two big-endian 16-bit words, on mismatch
raise (`none`). -/
def read_data_with_crc (data : List Nat) : Option (Nat × Nat) :=
  match data with
  | [d0, d1, c1, d2, d3, c2] =>
    if calculate_crc8 [d0, d1] = c1 ∧ calculate_crc8 [d2, d3] = c2 then
      some (d0 <<< 8 ||| d1, d2 <<< 8 ||| d3)
    else
      none
  | _ => none

/-- `SHT4x.reset`: write `CMD_SOFT_RESET`, sleep 10 ms, return `True`;
on any exception return `False`.  The result records the unchanged state,
the boolean result, and the bus actions attempted (a single write — the
method performs no read in either branch). -/
def reset (st : SensorState) (writeOk : Bool) :
    SensorState × Bool × List BusAction :=
  (st, writeOk, [BusAction.write CMD_SOFT_RESET])

/-- `SHT4x.update`: write `self._mode` (writing Python `None` raises, hence
the `none` branch fails), sleep `self._delay`, read 6 bytes and validate.
On success assign both raw words, set `_valid = True`, return `True`; on any
exception set `_valid = False` and return `False`.  The tuple assignment
`self._temperature, self._humidity = self._read_data_with_crc()` evaluates
its right side before assigning, so a failed read assigns nothing. -/
def update (st : SensorState) (writeOk : Bool) (readBytes : Option (List Nat)) :
    SensorState × Bool :=
  match st.mode, writeOk with
  | none, _ => ({ st with valid := false }, false)
  | some _, false => ({ st with valid := false }, false)
  | some _, true =>
    match readBytes with
    | none => ({ st with valid := false }, false)
    | some data =>
      match read_data_with_crc data with
      | none => ({ st with valid := false }, false)
      | some (t, h) =>
        ({ st with temperature := some t, humidity := some h, valid := true },
         true)

/-- The `mode` property getter: scan `VALID_MODES` in order and return the
first name whose command byte equals `self._mode`; return `""` when none
matches. -/
def getMode (st : SensorState) : String :=
  match VALID_MODES.find? (fun p => some p.2.1 == st.mode) with
  | some p => p.1
  | none => ""

/-- The `mode` property setter: first assigns `self._mode = None`, then scans
`VALID_MODES`; on a hit assigns command byte and delay and breaks; if the
scan ends with `self._mode` still `None` it raises `ValueError`.  The
returned `Bool` is `false` exactly when `ValueError` is raised; the returned
state is the instance state after the call either way (in Python the
mutations already performed survive the raise). -/
def setMode (st : SensorState) (name : String) : SensorState × Bool :=
  match VALID_MODES.find? (fun p => p.1 == name) with
  | some p => ({ st with mode := some p.2.1, delay := p.2.2 }, true)
  | none => ({ st with mode := none }, false)

/-- The lookup contract of spec §4.2 over the source's table: find the entry
whose name matches exactly, returning its (command byte, settle delay) pair,
or `none` (`InvalidMode`) when no entry matches. -/
def lookupMode (name : String) : Option (Nat × ℚ) :=
  (VALID_MODES.find? (fun p => p.1 == name)).map (fun p => p.2)

/-- Python `round(x, 1)` over the exact rationals: round `10 * x` to the
nearest integer and divide by `10`.  (Python breaks ties to even; no
reachable input of this driver produces a tie, see the file comment.) -/
def round1 (x : ℚ) : ℚ := ((round (10 * x) : ℤ) : ℚ) / 10

/-- The raw-humidity conversion formula of line 171 of the source, before
rounding and clamping: `-6.0 + 125.0 * raw / 65535.0`. -/
def humidityFormula (raw : Nat) : ℚ := -6 + 125 * (raw : ℚ) / 65535

/-- The raw-temperature conversion formula of line 157 of the source, before
rounding: `-45.0 + 175.0 * raw / 65535.0`. -/
def temperatureFormula (raw : Nat) : ℚ := -45 + 175 * (raw : ℚ) / 65535

/-- The `temperature` property: `None` when `_temperature` is `None`,
otherwise the formula rounded to one decimal place (no clamping). -/
def temperature (st : SensorState) : Option ℚ :=
  match st.temperature with
  | none => none
  | some raw => some (round1 (temperatureFormula raw))

/-- The `humidity` property: `None` when `_humidity` is `None`, otherwise
the formula rounded to one decimal place and then clamped by
`max(min(humidity, 100.0), 0.0)`. -/
def humidity (st : SensorState) : Option ℚ :=
  match st.humidity with
  | none => none
  | some raw => some (max (min (round1 (humidityFormula raw)) 100) 0)

/-- Python `hex(n)[2:]` for `n ≥ 0`: minimal-length lowercase hexadecimal
digits of `n` (just `"0"` for `0`). -/
def hexChars (n : Nat) : List Char :=
  if _h : n < 16 then [Nat.digitChar n]
  else hexChars (n / 16) ++ [Nat.digitChar (n % 16)]
  decreasing_by exact Nat.div_lt_self (by omega) (by omega)

/-- Python `str.zfill(k)` on a sign-less string: left-pad with `'0'` to
length `k`. -/
def zfill (k : Nat) (s : List Char) : List Char :=
  List.replicate (k - s.length) '0' ++ s

/-- The serial-number format string of `__init__` line 50:
`hex(data[0])[2:].zfill(4) + hex(data[1])[2:].zfill(4)`. -/
def serialFormat (w1 w2 : Nat) : String :=
  String.mk (zfill 4 (hexChars w1) ++ zfill 4 (hexChars w2))

/-- The `_serial_number` field after `__init__`: it starts at `"None"` and is
reassigned only when `_get_serial_number` returned a non-empty list, i.e.
when the construction-time read succeeded with two checksum-validated words.
`none` models the failure case (`_get_serial_number` returned `[]`). -/
def initSerial : Option (Nat × Nat) → String
  | some (w1, w2) => serialFormat w1 w2
  | none => "None"

/-- The `serial_number` property returns `f"{self._serial_number}"`, i.e. the
stored string itself. -/
def serial_number (st : SensorState) : String := st.serial

/-- Which branch of `__repr__` runs: `0` for the `_serial_number == ""`
branch ("no sensor found"), `1` for the `_valid` branch, `2` otherwise. -/
def reprBranch (st : SensorState) : Nat :=
  if st.serial = "" then 0 else if st.valid then 1 else 2

/-- The 4-hex-digit rendering of a 16-bit word as the spec words it (§6):
the word zero-padded to 4 lowercase hex digits, most significant first. -/
def specHex4 (w : Nat) : List Char :=
  [Nat.digitChar (w / 4096 % 16), Nat.digitChar (w / 256 % 16),
   Nat.digitChar (w / 16 % 16), Nat.digitChar (w % 16)]

/-! ## Checksum: the source's mask-at-the-end CRC agrees with the spec's
mask-every-step reference CRC -/

/-- Masking after a shift commutes with masking before it: only bits 0–7
survive, and bit `i` of a 1-bit left shift is bit `i - 1` of the input
either way. -/
theorem and255_shiftLeft (c : Nat) : ((c &&& 0xFF) <<< 1) &&& 0xFF = (c <<< 1) &&& 0xFF := by
  apply Nat.eq_of_testBit_eq
  intro i
  have h : (0xFF : Nat) = 2 ^ 8 - 1 := by norm_num
  rw [h]
  simp only [Nat.testBit_and, Nat.testBit_shiftLeft, Nat.testBit_two_pow_sub_one]
  by_cases hi : i < 8
  · by_cases h1 : 1 ≤ i
    · have h2 : i - 1 < 8 := by omega
      simp [hi, h1, h2]
    · simp [h1]
  · simp [hi]

/-- XOR with a byte-sized constant commutes with masking to 8 bits. -/
theorem and255_xor (a b : Nat) (hb : b < 256) : (a ^^^ b) &&& 0xFF = (a &&& 0xFF) ^^^ b := by
  rw [Nat.and_xor_distrib_right]
  congr 1
  have h : (0xFF : Nat) = 2 ^ 8 - 1 := by norm_num
  rw [h]
  exact Nat.and_pow_two_sub_one_of_lt_two_pow (by simpa using hb)

/-- One unmasked source step followed by a final mask equals one
spec-reference step on the masked accumulator. -/
theorem crc8Step_and (c : Nat) : crc8Step c &&& 0xFF = crc8RefStep (c &&& 0xFF) := by
  have hcond : (c &&& 0xFF) &&& 0x80 = c &&& 0x80 := by
    rw [Nat.and_assoc, (by decide : (0xFF &&& 0x80 : Nat) = 0x80)]
  unfold crc8Step crc8RefStep
  rw [hcond]
  by_cases h : c &&& 0x80 ≠ 0
  · rw [if_pos h, if_pos h]
    rw [and255_xor _ 0x31 (by norm_num), and255_xor _ 0x31 (by norm_num), and255_shiftLeft]
  · rw [if_neg h, if_neg h, and255_shiftLeft]

/-- `crc8Step_and` iterated: any number of unmasked steps then a final mask
equals the same number of masked steps. -/
theorem crc8Step_iterate_and (n c : Nat) :
    (crc8Step^[n] c) &&& 0xFF = crc8RefStep^[n] (c &&& 0xFF) := by
  induction n generalizing c with
  | zero => rfl
  | succ n ih =>
    rw [Function.iterate_succ_apply, Function.iterate_succ_apply, ih, crc8Step_and]

/-- The per-byte folds of the source CRC and the reference CRC stay in the
masking relation, for byte-sized data. -/
theorem foldl_crc8_and (l : List Nat) (hl : ∀ b ∈ l, b < 256) (c : Nat) :
    (l.foldl crc8Byte c) &&& 0xFF =
      l.foldl (fun crc b => crc8RefStep^[8] (crc ^^^ b)) (c &&& 0xFF) := by
  induction l generalizing c with
  | nil => rfl
  | cons b l ih =>
    have hb : b < 256 := hl b (by simp)
    have hl2 : ∀ x ∈ l, x < 256 := fun x hx => hl x (by simp [hx])
    rw [List.foldl_cons, List.foldl_cons, ih hl2]
    congr 1
    unfold crc8Byte
    rw [crc8Step_iterate_and, and255_xor _ _ hb]

/-- The source's `_calculate_crc8` computes exactly the spec's reference
CRC-8 on any list of byte values. -/
theorem crc8_eq_crc8Ref (l : List Nat) (hl : ∀ b ∈ l, b < 256) :
    calculate_crc8 l = crc8Ref l := by
  unfold calculate_crc8 crc8Ref
  rw [foldl_crc8_and l hl 0xFF, (by decide : (0xFF &&& 0xFF : Nat) = 0xFF)]

/-- C2: on every 2-byte input, `_calculate_crc8` equals the reference CRC-8
(polynomial 0x31, init 0xFF, MSB-first, no final XOR, accumulator reduced
to 8 bits at every step), and on the datasheet example `[0xBE, 0xEF]` it
yields the documented value 0x92.  Determinism and purity are inherent in
the embedding: `calculate_crc8` is a function of its argument alone. -/
theorem crc8_matches_reference :
    (∀ b0 b1 : Nat, b0 < 256 → b1 < 256 →
      calculate_crc8 [b0, b1] = crc8Ref [b0, b1]) ∧
    calculate_crc8 [0xBE, 0xEF] = 0x92 := by
  constructor
  · intro b0 b1 h0 h1
    apply crc8_eq_crc8Ref
    intro b hb
    simp only [List.mem_cons, List.not_mem_nil, or_false] at hb
    rcases hb with h | h <;> omega
  · decide

/-- Witness for C2 at the datasheet input. -/
theorem crc8_matches_reference_witness :
    calculate_crc8 [0xBE, 0xEF] = crc8Ref [0xBE, 0xEF] :=
  crc8_matches_reference.1 0xBE 0xEF (by norm_num) (by norm_num)

/-! ## Mode table and mode setter/getter -/

/-- Counterexample to C1 as stated: starting from the state left by
`set_mode("high")` (command byte 0xFD, delay 0.01), calling the setter with
the absent name `"nonexistent"` does NOT leave the stored command byte and
delay unchanged — the setter's first action `self._mode = None` survives
the `ValueError`, so the stored command byte is `None` afterwards. -/
theorem setMode_invalid_cex :
    ¬ ((setMode { initState with mode := some 0xFD, delay := 1/100 } "nonexistent").1.mode =
        some 0xFD ∧
       (setMode { initState with mode := some 0xFD, delay := 1/100 } "nonexistent").1.delay =
        1/100) :=
  fun h =>
    absurd h.1
      (by decide :
        ¬ (setMode { initState with mode := some 0xFD, delay := 1/100 } "nonexistent").1.mode =
          some 0xFD)

/-- C1 (amended): for every mode name not in the command table, the setter
raises `ValueError` (result flag `false`) and leaves every field except the
stored command byte unchanged — in particular the settle delay keeps its
prior value — but the stored command byte itself is left as `None`, not at
its prior value. -/
theorem setMode_invalid :
    ∀ (st : SensorState) (name : String),
      name ∉ VALID_MODES.map (fun p => p.1) →
      setMode st name = ({ st with mode := none }, false) := by
  intro st name h
  unfold setMode
  have hf : VALID_MODES.find? (fun p => p.1 == name) = none := by
    rw [List.find?_eq_none]
    intro p hp
    simp only [beq_iff_eq]
    intro heq
    exact h (heq ▸ List.mem_map_of_mem _ hp)
  rw [hf]

/-- Witness for C1 (amended) at a concrete invalid name. -/
theorem setMode_invalid_witness :
    setMode initState "nonexistent" = ({ initState with mode := none }, false) :=
  setMode_invalid initState "nonexistent" (by decide)

/-- C3: the command table maps each of the nine mode names to exactly the
(command byte, settle delay) pair required by the spec, and contains no
other entries (its length is nine). -/
theorem valid_modes_table :
    lookupMode "high" = some (0xFD, 1/100) ∧
    lookupMode "medium" = some (0xF6, 1/100) ∧
    lookupMode "low" = some (0xE0, 1/100) ∧
    lookupMode "heat 1s 200mW" = some (0x39, 101/100) ∧
    lookupMode "heat 0.1s 200mW" = some (0x32, 11/100) ∧
    lookupMode "heat 1s 110mW" = some (0x2F, 101/100) ∧
    lookupMode "heat 0.1s 110mW" = some (0x24, 11/100) ∧
    lookupMode "heat 1s 20mW" = some (0x1E, 101/100) ∧
    lookupMode "heat 0.1s 20mW" = some (0x15, 11/100) ∧
    VALID_MODES.length = 9 :=
  ⟨rfl, rfl, rfl, rfl, rfl, rfl, rfl, rfl, rfl, rfl⟩

/-- C7: the table's command bytes are pairwise distinct; setting any valid
mode name and reading the getter (reverse lookup of the stored byte)
returns the same name; and the getter returns the empty-string sentinel
whenever the stored byte matches no table entry. -/
theorem mode_bijective :
    (VALID_MODES.map (fun p => p.2.1)).Nodup ∧
    (∀ (st : SensorState) (name : String), name ∈ VALID_MODES.map (fun p => p.1) →
      getMode (setMode st name).1 = name) ∧
    (∀ st : SensorState, (∀ p ∈ VALID_MODES, some p.2.1 ≠ st.mode) → getMode st = "") := by
  refine ⟨by decide, ?_, ?_⟩
  · intro st name h
    fin_cases h <;> rfl
  · intro st h
    have hf : VALID_MODES.find? (fun p => some p.2.1 == st.mode) = none := by
      rw [List.find?_eq_none]
      intro p hp
      simpa using h p hp
    simp [getMode, hf]

/-- Witness for C7: a concrete round trip and a concrete sentinel case. -/
theorem mode_bijective_witness :
    getMode (setMode initState "medium").1 = "medium" ∧
    getMode { initState with mode := none } = "" := by
  constructor
  · exact mode_bijective.2.1 initState "medium" (by decide)
  · exact mode_bijective.2.2 { initState with mode := none } (by decide)

/-! ## reset and update -/

/-- C9: `reset` sends exactly the fixed byte 0x94, returns `true` iff the
bus write succeeded, performs no read, and leaves every stored field
(cached reading, validity flag, mode, delay, serial) unchanged. -/
theorem reset_spec :
    ∀ (st : SensorState) (writeOk : Bool),
      reset st writeOk = (st, writeOk, [BusAction.write 0x94]) ∧
      ((reset st writeOk).2.1 = true ↔ writeOk = true) ∧
      (∀ n, BusAction.read n ∉ (reset st writeOk).2.2) := by
  intro st writeOk
  refine ⟨rfl, Iff.rfl, ?_⟩
  intro n hn
  simp [reset] at hn

/-- Witness for C9 at a concrete state and write outcome. -/
theorem reset_spec_witness :
    reset initState true = (initState, true, [BusAction.write 0x94]) :=
  (reset_spec initState true).1

/-- Bridging lemma: the value the source stores, `d0 << 8 | d1`, is the
big-endian 16-bit value `256 * d0 + d1` whenever `d1` is a byte. -/
theorem shiftLeft8_or_eq (a b : Nat) (hb : b < 256) : a <<< 8 ||| b = 256 * a + b := by
  apply Nat.eq_of_testBit_eq
  intro i
  have h1 : 256 * a + b = 2 ^ 8 * a + b := by norm_num
  rw [h1, Nat.testBit_mul_pow_two_add a (by simpa using hb) i]
  simp only [Nat.testBit_or, Nat.testBit_shiftLeft]
  by_cases hi : i < 8
  · have h2 : ¬ (i ≥ 8) := by omega
    simp [hi, h2]
  · have h2 : i ≥ 8 := by omega
    have h3 : b < 2 ^ i := lt_of_lt_of_le (by simpa using hb) (Nat.pow_le_pow_right (by omega) h2)
    simp [hi, h2, Nat.testBit_lt_two_pow h3]

/-- C4: every failure of `update` — bus write error (including a cleared
mode), bus read error, or a checksum mismatch in either 3-byte group —
returns `false`, sets the valid flag to `false`, and leaves the stored raw
temperature and humidity codes exactly as they were (the failing result
states are full record updates touching only `valid`); on success for both
groups it stores the two raw 16-bit big-endian values, sets the flag, and
returns `true`. -/
theorem update_spec :
    (∀ (st : SensorState) (rb : Option (List Nat)),
      update st false rb = ({ st with valid := false }, false)) ∧
    (∀ (st : SensorState) (w : Bool),
      update st w none = ({ st with valid := false }, false)) ∧
    (∀ (st : SensorState) (w : Bool) (d : List Nat),
      read_data_with_crc d = none →
      update st w (some d) = ({ st with valid := false }, false)) ∧
    (∀ (st : SensorState) (cmd : Nat) (d : List Nat) (t h : Nat),
      st.mode = some cmd → read_data_with_crc d = some (t, h) →
      update st true (some d) =
        ({ st with temperature := some t, humidity := some h, valid := true }, true)) ∧
    (∀ d0 d1 c1 d2 d3 c2 : Nat, d1 < 256 → d3 < 256 →
      calculate_crc8 [d0, d1] = c1 → calculate_crc8 [d2, d3] = c2 →
      read_data_with_crc [d0, d1, c1, d2, d3, c2] =
        some (256 * d0 + d1, 256 * d2 + d3)) ∧
    (∀ d0 d1 c1 d2 d3 c2 : Nat,
      calculate_crc8 [d0, d1] ≠ c1 ∨ calculate_crc8 [d2, d3] ≠ c2 →
      read_data_with_crc [d0, d1, c1, d2, d3, c2] = none) := by
  refine ⟨?_, ?_, ?_, ?_, ?_, ?_⟩
  · intro st rb
    unfold update
    cases h : st.mode <;> simp
  · intro st w
    unfold update
    cases h : st.mode <;> cases w <;> simp
  · intro st w d hread
    unfold update
    cases h : st.mode <;> cases w <;> simp [hread]
  · intro st cmd d t h hmode hread
    unfold update
    rw [hmode]
    simp [hread]
  · intro d0 d1 c1 d2 d3 c2 hd1 hd3 h1 h2
    show (if calculate_crc8 [d0, d1] = c1 ∧ calculate_crc8 [d2, d3] = c2 then
        some (d0 <<< 8 ||| d1, d2 <<< 8 ||| d3) else none) = _
    rw [if_pos ⟨h1, h2⟩, shiftLeft8_or_eq d0 d1 hd1, shiftLeft8_or_eq d2 d3 hd3]
  · intro d0 d1 c1 d2 d3 c2 h
    show (if calculate_crc8 [d0, d1] = c1 ∧ calculate_crc8 [d2, d3] = c2 then
        some (d0 <<< 8 ||| d1, d2 <<< 8 ||| d3) else none) = _
    rw [if_neg]
    rw [not_and_or]
    exact h

/-- Witness for C4: a concrete write failure, a concrete fully successful
update, a concrete validated frame, and a concrete corrupted frame. -/
theorem update_spec_witness :
    update initState false none = ({ initState with valid := false }, false) ∧
    update { initState with mode := some 0xFD } true (some [0xBE, 0xEF, 0x92, 0xBE, 0xEF, 0x92]) =
      ({ initState with
          mode := some 0xFD, temperature := some 0xBEEF, humidity := some 0xBEEF,
          valid := true }, true) ∧
    read_data_with_crc [0xBE, 0xEF, 0x92, 0xBE, 0xEF, 0x92] = some (0xBEEF, 0xBEEF) ∧
    read_data_with_crc [0xBE, 0xEF, 0x00, 0xBE, 0xEF, 0x92] = none := by
  refine ⟨update_spec.1 initState none, ?_, ?_, ?_⟩
  · exact update_spec.2.2.2.1 { initState with mode := some 0xFD }
      0xFD [0xBE, 0xEF, 0x92, 0xBE, 0xEF, 0x92] 0xBEEF 0xBEEF rfl (by decide)
  · exact update_spec.2.2.2.2.1 0xBE 0xEF 0x92 0xBE 0xEF 0x92 (by decide) (by decide)
      (by decide) (by decide)
  · exact update_spec.2.2.2.2.2 0xBE 0xEF 0x00 0xBE 0xEF 0x92 (Or.inl (by decide))

/-! ## Conversion formulas -/

/-- Rounding to one decimal place of a value above 100 stays at or above
100. -/
theorem round1_ge_100 (x : ℚ) (h : 100 < x) : 100 ≤ round1 x := by
  unfold round1
  have h1 : (1000 : ℤ) ≤ round (10 * x) := by
    rw [round_eq]
    apply Int.le_floor.mpr
    push_cast
    linarith
  have h2 : (1000 : ℚ) ≤ (round (10 * x) : ℚ) := by exact_mod_cast h1
  linarith

/-- Rounding to one decimal place of a negative value stays at or below
zero. -/
theorem round1_le_0 (x : ℚ) (h : x < 0) : round1 x ≤ 0 := by
  unfold round1
  have h1 : round (10 * x) < 1 := by
    rw [round_eq]
    apply Int.floor_lt.mpr
    push_cast
    linarith
  have h2 : (round (10 * x) : ℚ) ≤ 0 := by exact_mod_cast (by omega : round (10 * x) ≤ 0)
  linarith

/-- C5: `humidity` is absent when no raw code was ever captured; otherwise
it is the formula `-6 + 125 * raw / 65535` rounded to one decimal place and
clamped to [0, 100]; any raw code whose formula value exceeds 100 reports
exactly 100, any below 0 reports exactly 0; and raw code 0x5678 reports
181/5 = 36.2, within 0.1 of the spec's 36.2. -/
theorem humidity_spec :
    (∀ st : SensorState, st.humidity = none → humidity st = none) ∧
    (∀ (st : SensorState) (raw : Nat), st.humidity = some raw →
      humidity st = some (max (min (round1 (humidityFormula raw)) 100) 0)) ∧
    (∀ (st : SensorState) (raw : Nat), st.humidity = some raw →
      100 < humidityFormula raw → humidity st = some 100) ∧
    (∀ (st : SensorState) (raw : Nat), st.humidity = some raw →
      humidityFormula raw < 0 → humidity st = some 0) ∧
    humidity { initState with humidity := some 0x5678 } = some (181/5) ∧
    |(181/5 : ℚ) - 362/10| ≤ 1/10 := by
  have hform : ∀ st : SensorState, ∀ raw : Nat, st.humidity = some raw →
      humidity st = some (max (min (round1 (humidityFormula raw)) 100) 0) := by
    intro st raw h
    simp [humidity, h]
  refine ⟨?_, hform, ?_, ?_, ?_, by norm_num⟩
  · intro st h
    simp [humidity, h]
  · intro st raw h hgt
    rw [hform st raw h]
    rw [min_eq_right (round1_ge_100 _ hgt), max_eq_left (by norm_num)]
  · intro st raw h hlt
    rw [hform st raw h]
    rw [min_eq_left (le_trans (round1_le_0 _ hlt) (by norm_num)),
        max_eq_right (round1_le_0 _ hlt)]
  · have hval : (10 : ℚ) * humidityFormula 0x5678 = 23737900 / 65535 := by
      unfold humidityFormula
      norm_num
    have hr : round ((10 : ℚ) * humidityFormula 0x5678) = 362 := by
      rw [hval, round_eq]
      rw [Int.floor_eq_iff]
      constructor
      · norm_num
      · norm_num
    rw [hform { initState with humidity := some 0x5678 } 0x5678 rfl]
    unfold round1
    rw [hr]
    norm_num

/-- Witness for C5: the test vector, an over-range code clamped to 100, and
an under-range code clamped to 0. -/
theorem humidity_spec_witness :
    humidity { initState with humidity := some 0x5678 } =
      some (max (min (round1 (humidityFormula 0x5678)) 100) 0) ∧
    humidity { initState with humidity := some 0xFFFF } = some 100 ∧
    humidity { initState with humidity := some 0 } = some 0 := by
  refine ⟨humidity_spec.2.1 _ 0x5678 rfl, ?_, ?_⟩
  · apply humidity_spec.2.2.1 _ 0xFFFF rfl
    unfold humidityFormula
    norm_num
  · apply humidity_spec.2.2.2.1 _ 0 rfl
    unfold humidityFormula
    norm_num

/-- C6: `temperature` is absent when no raw code was ever captured;
otherwise it is exactly the formula `-45 + 175 * raw / 65535` rounded to
one decimal place, with no clamping: raw code 0x1234 reports
-163/5 = -32.6 (within 0.1 of the spec's -32.6), raw code 0 reports the
negative value -45, and raw code 0xFFFF reports 130, beyond the typical
0–100 range. -/
theorem temperature_spec :
    (∀ st : SensorState, st.temperature = none → temperature st = none) ∧
    (∀ (st : SensorState) (raw : Nat), st.temperature = some raw →
      temperature st = some (round1 (temperatureFormula raw))) ∧
    (temperature { initState with temperature := some 0x1234 } = some (-163/5) ∧
      |(-163/5 : ℚ) - (-326/10)| ≤ 1/10) ∧
    temperature { initState with temperature := some 0 } = some (-45) ∧
    temperature { initState with temperature := some 0xFFFF } = some 130 := by
  have hform : ∀ st : SensorState, ∀ raw : Nat, st.temperature = some raw →
      temperature st = some (round1 (temperatureFormula raw)) := by
    intro st raw h
    simp [temperature, h]
  refine ⟨?_, hform, ⟨?_, by norm_num⟩, ?_, ?_⟩
  · intro st h
    simp [temperature, h]
  · have hval : (10 : ℚ) * temperatureFormula 0x1234 = -21335750 / 65535 := by
      unfold temperatureFormula
      norm_num
    have hr : round ((10 : ℚ) * temperatureFormula 0x1234) = -326 := by
      rw [hval, round_eq, Int.floor_eq_iff]
      constructor
      · norm_num
      · norm_num
    rw [hform _ 0x1234 rfl]
    unfold round1
    rw [hr]
    norm_num
  · have hval : (10 : ℚ) * temperatureFormula 0 = -450 := by
      unfold temperatureFormula
      norm_num
    have hr : round ((10 : ℚ) * temperatureFormula 0) = -450 := by
      rw [hval]
      exact_mod_cast round_intCast (-450)
    rw [hform _ 0 rfl]
    unfold round1
    rw [hr]
    norm_num
  · have hval : (10 : ℚ) * temperatureFormula 0xFFFF = 1300 := by
      unfold temperatureFormula
      norm_num
    have hr : round ((10 : ℚ) * temperatureFormula 0xFFFF) = 1300 := by
      rw [hval]
      exact_mod_cast round_intCast 1300
    rw [hform _ 0xFFFF rfl]
    unfold round1
    rw [hr]
    norm_num

/-- Witness for C6 at the spec's test vector. -/
theorem temperature_spec_witness :
    temperature { initState with temperature := some 0x1234 } =
      some (round1 (temperatureFormula 0x1234)) := temperature_spec.2.1 _ 0x1234 rfl

/-! ## Serial number -/

/-- Unfolding `hexChars` below 16. -/
theorem hexChars_lt (n : Nat) (h : n < 16) : hexChars n = [Nat.digitChar n] := by
  rw [hexChars]
  rw [dif_pos h]

/-- Unfolding `hexChars` at or above 16. -/
theorem hexChars_ge (n : Nat) (h : ¬ n < 16) :
    hexChars n = hexChars (n / 16) ++ [Nat.digitChar (n % 16)] := by
  conv_lhs => rw [hexChars]
  rw [dif_neg h]

/-- For a 16-bit word, `hex(w)[2:].zfill(4)` is exactly the 4 hex digits of
`w`, most significant first. -/
theorem zfill4_hexChars (w : Nat) (h : w < 65536) : zfill 4 (hexChars w) = specHex4 w := by
  unfold specHex4 zfill
  by_cases h1 : w < 16
  · rw [hexChars_lt w h1]
    rw [(by omega : w / 4096 % 16 = 0), (by omega : w / 256 % 16 = 0),
        (by omega : w / 16 % 16 = 0), (by omega : w % 16 = w)]
    rfl
  · by_cases h2 : w < 256
    · rw [hexChars_ge w h1, hexChars_lt (w / 16) (by omega)]
      rw [(by omega : w / 4096 % 16 = 0), (by omega : w / 256 % 16 = 0),
          (by omega : w / 16 % 16 = w / 16)]
      rfl
    · by_cases h3 : w < 4096
      · rw [hexChars_ge w h1, hexChars_ge (w / 16) (by omega),
            hexChars_lt (w / 16 / 16) (by omega)]
        rw [(by omega : w / 16 / 16 = w / 256)]
        rw [(by omega : w / 4096 % 16 = 0), (by omega : w / 256 % 16 = w / 256)]
        rfl
      · rw [hexChars_ge w h1, hexChars_ge (w / 16) (by omega),
            hexChars_ge (w / 16 / 16) (by omega), hexChars_lt (w / 16 / 16 / 16) (by omega)]
        rw [(by omega : w / 16 / 16 / 16 = w / 4096), (by omega : w / 16 / 16 = w / 256)]
        rw [(by omega : w / 4096 % 16 = w / 4096)]
        rfl

/-- C8: whenever the construction-time serial-number read succeeded with two
checksum-validated 16-bit words, the `serial_number` property is the
8-character string of the two words' hex digits, each zero-padded to 4
digits, high word first, using only lowercase hexadecimal characters. -/
theorem serial_number_format :
    ∀ (st : SensorState) (w1 w2 : Nat), w1 < 65536 → w2 < 65536 →
      st.serial = initSerial (some (w1, w2)) →
      serial_number st = String.mk (specHex4 w1 ++ specHex4 w2) ∧
      (serial_number st).length = 8 ∧
      ∀ c ∈ (serial_number st).data, c ∈ "0123456789abcdef".data := by
  intro st w1 w2 h1 h2 hst
  have hs : serial_number st = String.mk (specHex4 w1 ++ specHex4 w2) := by
    rw [serial_number, hst]
    show serialFormat w1 w2 = _
    unfold serialFormat
    rw [zfill4_hexChars w1 h1, zfill4_hexChars w2 h2]
  refine ⟨hs, ?_, ?_⟩
  · rw [hs, String.length_mk]
    simp [specHex4]
  · rw [hs]
    intro c hc
    have hdig : ∀ n : Nat, n < 16 → Nat.digitChar n ∈ "0123456789abcdef".data := by decide
    have hc2 : c ∈ specHex4 w1 ++ specHex4 w2 := hc
    simp only [specHex4, List.mem_append, List.mem_cons, List.not_mem_nil, or_false] at hc2
    rcases hc2 with (h | h | h | h) | (h | h | h | h) <;>
      exact h ▸ hdig _ (Nat.mod_lt _ (by norm_num))

/-- Witness for C8 at a concrete pair of words. -/
theorem serial_number_format_witness :
    serial_number { initState with serial := initSerial (some (0x0123, 0xABCD)) } =
      String.mk (specHex4 0x0123 ++ specHex4 0xABCD) :=
  (serial_number_format _ 0x0123 0xABCD (by norm_num) (by norm_num) rfl).1

/-- C10: a failed construction-time serial read leaves the literal string
`"None"` in `_serial_number`, and no construction outcome (failure or a
successful two-word read) can leave the empty string there, so the
`__repr__` branch guarded by `_serial_number == ""` (branch 0,
"no sensor found") is unreachable. -/
theorem serial_never_empty :
    (initSerial none = "None") ∧
    (∀ o : Option (Nat × Nat), initSerial o ≠ "") ∧
    (∀ (st : SensorState) (o : Option (Nat × Nat)), st.serial = initSerial o →
      reprBranch st ≠ 0) := by
  have hne : ∀ o : Option (Nat × Nat), initSerial o ≠ "" := by
    intro o
    match o with
    | none => decide
    | some (w1, w2) =>
      show serialFormat w1 w2 ≠ ""
      unfold serialFormat
      intro heq
      have hlen : (String.mk (zfill 4 (hexChars w1) ++ zfill 4 (hexChars w2))).length = 0 := by
        rw [heq]
        rfl
      rw [String.length_mk] at hlen
      simp only [zfill, List.length_append, List.length_replicate] at hlen
      omega
  refine ⟨rfl, hne, ?_⟩
  intro st o hst
  unfold reprBranch
  rw [if_neg (hst ▸ hne o)]
  by_cases hv : st.valid <;> simp [hv]

/-- Witness for C10 at the state a failed serial read produces. -/
theorem serial_never_empty_witness : reprBranch initState ≠ 0 :=
  serial_never_empty.2.2 initState none rfl

end SHT4x
